import Mathlib

/-!
Verification of the snmptools printer-monitoring scripts.

The development shallowly embeds the parts of `snmplib.py`,
`printerpoller.py` and `printercheck.py` that the checked properties
concern: config rules (`Rule`), printer parts (`Supply`, `Tray`),
rule matching (`Rule.matches`), rule evaluation (`apply_rules`),
the device alarm-severity fold (`maxSeverityLevel`), the error summary
(`err_parts_sorted`, `str_err_parts`), the SNMP table parser
(`parse_data`) and the host polling loop (`check_printers`).

Modelling conventions:
  * Python floats are modelled by `ℚ` (exact arithmetic).
  * Machine integers from SNMP are modelled by `Int`.
  * A Python function that can raise an exception on some inputs is
    modelled with an `Option` result (`none` = the exception);
    `Rule.matches` can raise `TypeError` when the rule's `name`
    predicate is a list, and that is the only exception reachable in
    the matching layer.
  * Dictionaries read from the YAML config are modelled by structures
    whose `Option` fields record key absence; Python truthiness of an
    empty dict or of the number `0` is translated explicitly at each
    use site.
-/

/-- Python's substring test `needle in hay` on character lists:
true iff `needle` occurs contiguously inside the other list. -/
def subMem (needle : List Char) : List Char → Bool
  | [] => needle.isEmpty
  | c :: rest => needle.isPrefixOf (c :: rest) || subMem needle rest

/-- Python's `needle in hay` for strings (case-sensitive substring containment). -/
def strContains (hay needle : String) : Bool :=
  subMem needle.toList hay.toList

/-- A value of a `match` sub-predicate in a rule: the YAML config may give
a single string or a list of strings (`snmplib.py` branches on `type(...)`). -/
inductive MVal where
  | str (s : String)
  | list (l : List String)

/-- The `match` section of a rule (`snmplib.py`, `Rule.matches`): up to three
sub-predicates, keyed `host`, `name` and `type`; `none` records an absent key. -/
structure MatchSpec where
  host : Option MVal := none
  name : Option MVal := none
  type : Option MVal := none

/-- A rule as defined in the config file (`snmplib.py`, `Rule.__init__`):
`name` is mandatory; `match` defaults to `None`, `stop` to `False`,
`threshold` to `None` (else `float(...)`), `status` to `None` (else
`int(...)`), `severity` to `2`.  The Lean field `match'` stands for the
Python attribute `match` (a Lean keyword). -/
structure Rule where
  name : String
  match' : Option MatchSpec := none
  stop : Bool := false
  threshold : Option ℚ := none
  status : Option Int := none
  severity : Nat := 2

/-- A supply part: the `_level` and `_capacity` attributes read by
`Supply.check`, plus the part name read by `Rule.matches`. -/
structure Supply where
  name : String := ""
  level : Int
  capacity : Int

/-- Embedding of `Supply.check` (`snmplib.py` lines 217-225): the levels `-3` and `-2`
always give `True`; a falsy threshold (absent, or configured as `0`,
since `not 0.0` is true in Python) gives `False`; otherwise the result is
`(level / capacity) * 100 >= threshold`.  Note that `apply_rules` binds
this result to the variable `ok`, i.e. `True` means the rule is satisfied.
(For `capacity = 0` Python would raise `ZeroDivisionError`; in `ℚ` the
division totalises as `0`, so theorems that can reach the threshold
branch carry a `capacity ≠ 0` hypothesis or the `PrinterPart.checkSafe`
guard.) -/
def Supply.check (s : Supply) (rule : Rule) : Bool :=
  if s.level = -3 then true
  else if s.level = -2 then true
  else
    match rule.threshold with
    | none => false
    | some t =>
      if t = 0 then false
      else decide (((s.level : ℚ) / (s.capacity : ℚ)) * 100 ≥ t)

/-- A tray part: the `_status` attribute read by `Tray.check`, plus the
part name read by `Rule.matches`. -/
structure Tray where
  name : String := ""
  status : Int

/-- Embedding of `Tray.check` (`snmplib.py` lines 303-307): a falsy status bound
(absent, or configured as `0`, since `not 0` is true in Python) gives
`False`; otherwise the result is `status <= rule.status`. -/
def Tray.check (t : Tray) (rule : Rule) : Bool :=
  match rule.status with
  | none => false
  | some b =>
    if b = 0 then false else decide (t.status ≤ b)

/-- A printer part as passed to `Rule.matches` and `apply_rules`: either a
supply or a tray.  For a supply, `typeStr` carries the value of
`get_type_str()`, i.e. the `Supply.TYPES` table entry for the part's type
code (for example `"tonerCartridge"` for code 21); for a tray
`get_type_str()` is the constant `"tray"`. -/
inductive PrinterPart where
  | supply (s : Supply) (typeStr : String)
  | tray (t : Tray)

/-- The `get_name()` method of a printer part. -/
def PrinterPart.get_name : PrinterPart → String
  | .supply s _ => s.name
  | .tray t => t.name

/-- The `get_type_str()` method of a printer part. -/
def PrinterPart.get_type_str : PrinterPart → String
  | .supply _ ts => ts
  | .tray _ => "tray"

/-- The `check` method dispatched on the part's class. -/
def PrinterPart.check : PrinterPart → Rule → Bool
  | .supply s _, r => s.check r
  | .tray t, r => t.check r

/-- Condition under which the Python `check` cannot raise for any rule: a
supply divides by its capacity only after the sentinel-level early
returns, so a sentinel level or a nonzero capacity rules out the
`ZeroDivisionError` of `snmplib.py` line 225; a tray's check never
divides. -/
def PrinterPart.checkSafe : PrinterPart → Bool
  | .supply s _ => s.level == -3 || s.level == -2 || s.capacity != 0
  | .tray _ => true

/-- The `host` section of `Rule.matches` (`snmplib.py` lines 384-392):
a string must equal the host name, a list must contain it; an absent
section imposes nothing. -/
def hostSection (mhost : Option MVal) (h : String) : Bool :=
  match mhost with
  | none => true
  | some (MVal.str s) => s == h
  | some (MVal.list l) => l.contains h

/-- The `type` section of `Rule.matches` (`snmplib.py` lines 398-408):
a string must be a substring of the part's type string, a list matches
if any element is. -/
def typeSection (mtype : MVal) (typ : String) : Bool :=
  match mtype with
  | MVal.str s => strContains typ s
  | MVal.list l => l.any fun t => strContains typ t

/-- Tail of `Rule.matches` after the `name` section: the `type` check,
then `return True`. -/
def matchesTypeStep (mtype : Option MVal) (o : PrinterPart) : Option Bool :=
  match mtype with
  | none => some true
  | some mt => some (typeSection mt o.get_type_str)

/-- Embedding of `Rule.matches` (`snmplib.py` lines 371-409).  `some b` is a normal
boolean return; `none` is the `TypeError` Python raises at line 395 when
the `name` predicate is a list (`list not in str`).  A falsy `match`
attribute (`None`, or a dict with none of the three keys) never matches. -/
def Rule.matches (r : Rule) (o : PrinterPart) (h : String) : Option Bool :=
  match r.match' with
  | none => some false
  | some m =>
    if m.host.isNone && m.name.isNone && m.type.isNone then some false
    else if !(hostSection m.host h) then some false
    else
      match m.name with
      | some (MVal.list _) => none
      | some (MVal.str s) =>
        if !(strContains o.get_name s) then some false
        else matchesTypeStep m.type o
      | none => matchesTypeStep m.type o

/-- The `apply_rules` loop body (`printerpoller.py` lines 56-63), with the
running maximum `status` made explicit; `none` propagates a `TypeError`
raised by `Rule.matches`. -/
def applyRulesGo (item : PrinterPart) (host : String) : List Rule → Nat → Option Nat
  | [], status => some status
  | r :: rest, status =>
    match r.matches item host with
    | none => none
    | some false => applyRulesGo item host rest status
    | some true =>
      let ok := item.check r
      let status' := if !ok && decide (r.severity > status) then r.severity else status
      if r.stop then some status' else applyRulesGo item host rest status'

/-- Embedding of `apply_rules` (`printerpoller.py` lines 47-64). -/
def apply_rules (item : PrinterPart) (host : String) (rule_list : List Rule) : Option Nat :=
  applyRulesGo item host rule_list 0

/-- A rule "matches" a part for the purposes of `apply_rules`: the
`r.matches` call returns `True`. -/
def ruleHits (item : PrinterPart) (host : String) (r : Rule) : Bool :=
  decide (r.matches item host = some true)

/-- A part violates a rule when `check` returns `False`: `apply_rules`
binds the result of `item.check(r)` to `ok` and raises the running
severity exactly when `not ok`. -/
def violates (item : PrinterPart) (r : Rule) : Bool :=
  !(item.check r)

/-- The rules `apply_rules` actually considers: the whole list, truncated
just after the first rule that matches and declares `stop`. -/
def rulesUpToStop (item : PrinterPart) (host : String) : List Rule → List Rule
  | [] => []
  | r :: rest =>
    if ruleHits item host r && r.stop then [r]
    else r :: rulesUpToStop item host rest

/-- Specification-level description of `apply_rules`: the maximum severity
among considered rules that match and are violated, with default `0`. -/
def evalSpec (item : PrinterPart) (host : String) (rules : List Rule) : Nat :=
  ((rulesUpToStop item host rules).filter
      fun r => ruleHits item host r && violates item r).foldr
    (fun r acc => max r.severity acc) 0

/-- Modelled from the claim's words (C2), for comparison with
`Rule.matches`: a total boolean matcher in which every sub-predicate
given as a list (including `name`) holds when some element satisfies it. -/
def matchesClaim (r : Rule) (o : PrinterPart) (h : String) : Bool :=
  match r.match' with
  | none => false
  | some m =>
    if m.host.isNone && m.name.isNone && m.type.isNone then false
    else
      hostSection m.host h &&
      (match m.name with
       | none => true
       | some (MVal.str s) => strContains o.get_name s
       | some (MVal.list l) => l.any fun s => strContains o.get_name s) &&
      (match m.type with
       | none => true
       | some mt => typeSection mt o.get_type_str)

/-- A rule whose `name` predicate is not a list: on such rules
`Rule.matches` cannot raise. -/
def Rule.wellFormed (r : Rule) : Bool :=
  match r.match' with
  | none => true
  | some m =>
    match m.name with
    | some (MVal.list _) => false
    | _ => true

/-- The fold inside `PrinterInfo._get_max_severity_level` (`snmplib.py`
lines 95-99): `m = 0`, then for each walked value `val = min(v, 4)` and
`m = val if val > m else m`. -/
def severityFold (vals : List Int) : Int :=
  vals.foldl (fun m v => if min v 4 > m then min v 4 else m) 0

/-- Embedding of `PrinterInfo._get_max_severity_level` (`snmplib.py` lines 93-108):
fold the walked alarm codes as above, then map `4 -> 1` (warning),
`3 -> 2` (critical), anything else to `0`. -/
def maxSeverityLevel (vals : List Int) : Nat :=
  let m := severityFold vals
  if m = 4 then 1 else if m = 3 then 2 else 0

/-- Modelled from the claim's words (C7), for comparison with
`maxSeverityLevel`: map the maximum walked code through
`4 -> 1, 3 -> 2, other -> 0`, with `0` for an empty walk. -/
def claimSeverity (vals : List Int) : Nat :=
  match vals with
  | [] => 0
  | v :: rest =>
    let mx := rest.foldl max v
    if mx = 4 then 1 else if mx = 3 then 2 else 0

/-- Embedding of `info["err_parts"]` (`printerpoller.py` line 162):
`list(reversed(sorted(err_parts, key=lambda elem: elem[1])))`.
Python's `sorted` is a stable ascending sort, modelled by `mergeSort`. -/
def err_parts_sorted (l : List (String × Nat)) : List (String × Nat) :=
  (l.mergeSort fun a b => a.2 ≤ b.2).reverse

/-- Embedding of `info["str_err_parts"]` (`printerpoller.py` lines 164-170); note the
source's literal format string `"... and %d more failures(s)"`. -/
def str_err_parts (l : List (String × Nat)) : String :=
  let ep := err_parts_sorted l
  if ep.length = 0 then ""
  else if ep.length = 1 then "Alert for " ++ (ep.headD ("", 0)).1
  else "Alert for " ++ (ep.headD ("", 0)).1 ++ " and " ++
    toString (ep.length - 1) ++ " more failures(s)"

/-- An SNMP get result as consumed by `SNMPWalkable.add_data`: an
`INTEGER` payload or a string payload. -/
inductive Entry where
  | intVal (n : Int)
  | strVal (s : String)

/-- A stored attribute value after `add_data`'s conversion. -/
inductive SVal where
  | int (n : Int)
  | str (s : String)
deriving DecidableEq

/-- A whitespace character as removed by Python's `str.strip()`. -/
def isSpaceChar (c : Char) : Bool :=
  c = ' ' || c = '\t' || c = '\n' || c = '\r' || c = '\x0b' || c = '\x0c'

/-- Python's `str.strip()`: drop leading and trailing whitespace. -/
def stripChars (l : List Char) : List Char :=
  ((l.dropWhile isSpaceChar).reverse.dropWhile isSpaceChar).reverse

/-- The string cleanup in `add_data` (`snmplib.py` line 33):
`str(...).strip().replace("\x00", "")`. -/
def cleanString (s : String) : String :=
  ⟨(stripChars s.toList).filter fun c => c ≠ '\x00'⟩

/-- The value conversion in `add_data` (`snmplib.py` line 33). -/
def convertEntry : Entry → SVal
  | .intVal n => SVal.int n
  | .strVal s => SVal.str (cleanString s)

/-- A printer-part object under construction in `_parse_data`: the map
from attribute names to their current values.  `SNMPWalkable.__init__`
sets every attribute to `None`, i.e. every name maps to `none`. -/
def Entity : Type := String → Option SVal

/-- A freshly constructed part object: all attributes `None`. -/
def emptyEntity : Entity := fun _ => none

/-- Embedding of `add_data` (`snmplib.py` lines 25-34): store the converted value
under the attribute name `STRUCTURE[key]`. -/
def add_data (attr : String) (entry : Entry) (e : Entity) : Entity :=
  fun a => if a = attr then some (convertEntry entry) else e a

/-- The inner loop of `_parse_data` (`snmplib.py` lines 340-347) for one
OID `key`: walk entries with index `idx`; if `idx > len(items) - 1`
(an `int` comparison, hence the cast through `Int`) append a fresh
object, else reuse `items[idx]`; then `add_data` the entry into it. -/
def parseKey (attr : String) : List Entry → Nat → List Entity → List Entity
  | [], _, items => items
  | entry :: rest, idx, items =>
    if (idx : Int) > (items.length : Int) - 1 then
      parseKey attr rest (idx + 1) (items ++ [add_data attr entry emptyEntity])
    else
      parseKey attr rest (idx + 1)
        (items.set idx (add_data attr entry (items.getD idx emptyEntity)))

/-- Embedding of `PrinterProperties._parse_data` (`snmplib.py` lines 332-348) over an
abstract schema: `fields` lists the `STRUCTURE` items as
(OID key, attribute name) pairs, and `walk` gives the SNMP walk result
for each OID. -/
def parse_data (fields : List (String × String)) (walk : String → List Entry) :
    List Entity :=
  fields.foldl (fun items f => parseKey f.2 (walk f.1) 0 items) []

/-- Entity at index `j` of the parse result (`emptyEntity` out of range). -/
def nth (l : List Entity) (j : Nat) : Entity :=
  (l[j]?).getD emptyEntity

/-- The fields of the `info` dict that the degraded-host path of
`check_printers` writes (`printerpoller.py` line 206 and the `finally`
at line 208). -/
structure InfoRec where
  max_status : Nat
  name : String
  alerts : String
  rgb : String
  checked : Option String

/-- The result of a successful `check_printer(dev, rules)` call: the
`info` dict together with the supply and tray lists (their entries are
opaque here). -/
structure HostData where
  info : InfoRec
  supplies : List String
  trays : List String

/-- A stored `dataset["data"]` value: each key may be absent (`none`),
e.g. a brand-new device starts from the empty dict `{}`. -/
structure DData where
  info : Option InfoRec
  supplies : Option (List String)
  trays : Option (List String)

/-- The color `COLOR.HEADER_CRITICAL` (`printerpoller.py` line 25). -/
def HEADER_CRITICAL : String := "#DC143C"

/-- The dict assigned on the `EasySNMPConnectionError` path
(`printerpoller.py` line 206); `checked` is still unset there. -/
def offlineInfo (dev : String) : InfoRec :=
  ⟨2, dev, "Printer offline", HEADER_CRITICAL, none⟩

/-- CouchDB lookup `database.get(dev)` / `dev in database`, on an
association-list model of the database. -/
def dbGet (db : List (String × DData)) (dev : String) : Option DData :=
  List.lookup dev db

/-- CouchDB `database.save(dataset)`: replace the record with the same id, or
append a new one. -/
def dbSave (db : List (String × DData)) (dev : String) (d : DData) :
    List (String × DData) :=
  match db with
  | [] => [(dev, d)]
  | (k, v) :: rest =>
    if k == dev then (dev, d) :: rest else (k, v) :: dbSave rest dev d

/-- One iteration of the host loop in `check_printers` (`printerpoller.py`
lines 191-209).  `checkFn dev` abstracts `check_printer(dev, rule_list)`:
`some hd` is a normal return and `none` is an `EasySNMPConnectionError`.
On failure only the `info` key of the existing data is replaced; the
`finally` block then stamps `checked` with the current time `now` and
saves the record. -/
def checkPrintersStep (checkFn : String → Option HostData) (now : String)
    (db : List (String × DData)) (dev : String) : List (String × DData) :=
  let dataset : DData := (dbGet db dev).getD ⟨none, none, none⟩
  let data' : DData :=
    match checkFn dev with
    | some hd => ⟨some hd.info, some hd.supplies, some hd.trays⟩
    | none => { dataset with info := some (offlineInfo dev) }
  let data'' : DData :=
    { data' with info := data'.info.map fun i => { i with checked := some now } }
  dbSave db dev data''

/-- Embedding of `check_printers` (`printerpoller.py` lines 181-209): iterate the host
list, checking and saving each device in turn. -/
def check_printers (checkFn : String → Option HostData) (now : String)
    (db : List (String × DData)) (hosts : List String) : List (String × DData) :=
  hosts.foldl (checkPrintersStep checkFn now) db

/-! Concrete configurations and parts used as counterexamples and witnesses. -/

/-- A toner supply at 150 of 200 (75%). -/
def tonerPart : PrinterPart := .supply ⟨"Black Toner Cartridge", 150, 200⟩ "tonerCartridge"

/-- A toner supply whose level is the sentinel `-3` ("OK"). -/
def okPart : PrinterPart := .supply ⟨"Cyan Toner", -3, 200⟩ "tonerCartridge"

/-- A toner supply at 50 of 100. -/
def halfPart : PrinterPart := .supply ⟨"Cyan Toner", 50, 100⟩ "tonerCartridge"

/-- A matching stop rule with a threshold of 70 (not violated at 75%). -/
def stopRule : Rule :=
  { name := "stop rule", match' := some { type := some (MVal.str "toner") },
    stop := true, threshold := some 70 }

/-- A matching rule with no threshold (always `check = False` at level >= 0). -/
def noThresholdRule : Rule :=
  { name := "no threshold", match' := some { type := some (MVal.str "toner") } }

/-- A rule whose `name` predicate is a list: `Rule.matches` raises on it. -/
def listNameRule : Rule :=
  { name := "list name", match' := some { name := some (MVal.list ["Toner"]) } }

/-- A rule carrying the falsy threshold `0`. -/
def zeroThresholdRule : Rule := { name := "zero threshold", threshold := some 0 }

/-- A rule carrying the threshold `70`. -/
def thresholdRule70 : Rule := { name := "thr70", threshold := some 70 }

/-- A rule carrying the falsy tray status bound `0`. -/
def zeroStatusRule : Rule := { name := "zero status", status := some 0 }

/-- A rule carrying the tray status bound `5`. -/
def statusRule5 : Rule := { name := "status5", status := some 5 }


/-- A database holding an existing record for host "p" with a non-empty
supply list. -/
def oldRecordDB : List (String × DData) := [("p", ⟨none, some ["toner entry"], some []⟩)]

/-- A `check_printer` oracle for which every host raises
`EasySNMPConnectionError`. -/
def allOffline : String → Option HostData := fun _ => none

/-- A successful `check_printer` result for host "q". -/
def sampleHostData : HostData :=
  ⟨⟨0, "Printer Q", "", "#eeeeee", none⟩, ["black toner"], ["tray 1"]⟩

/-- A `check_printer` oracle for which "q" succeeds and every other host
raises `EasySNMPConnectionError`. -/
def mixedCheckFn : String → Option HostData :=
  fun dev => if dev = "q" then some sampleHostData else none

/-- A two-field schema in the style of `Supply.STRUCTURE`. -/
def sampleFields : List (String × String) := [("1.6", "name"), ("1.9", "level")]

/-- Mismatched parallel walks: two names but only one level. -/
def sampleWalk : String → List Entry :=
  fun oid =>
    if oid = "1.6" then [Entry.strVal " Black Toner ", Entry.strVal "Fuser"]
    else if oid = "1.9" then [Entry.intVal 150]
    else []

/-! ## Theorems -/

theorem applyRulesGo_eq (item : PrinterPart) (host : String) :
    ∀ (rules : List Rule), (∀ r ∈ rules, r.matches item host ≠ none) →
    ∀ status : Nat,
      applyRulesGo item host rules status =
        some (max status (evalSpec item host rules)) := by
  intro rules
  induction rules with
  | nil =>
    intro _ status
    simp [applyRulesGo, evalSpec, rulesUpToStop]
  | cons r rest ih =>
    intro hwf status
    have hr : r.matches item host ≠ none := hwf r (by simp)
    have hrest : ∀ r' ∈ rest, r'.matches item host ≠ none :=
      fun r' h' => hwf r' (by simp [h'])
    cases hm : r.matches item host with
    | none => exact absurd hm hr
    | some b =>
      cases b with
      | false =>
        have hhit : ruleHits item host r = false := by simp [ruleHits, hm]
        have hev : evalSpec item host (r :: rest) = evalSpec item host rest := by
          simp [evalSpec, rulesUpToStop, hhit, List.filter_cons]
        simp only [applyRulesGo, hm]
        rw [ih hrest status, hev]
      | true =>
        have hhit : ruleHits item host r = true := by simp [ruleHits, hm]
        cases hstop : r.stop with
        | true =>
          have hru : rulesUpToStop item host (r :: rest) = [r] := by
            simp [rulesUpToStop, hhit, hstop]
          simp only [applyRulesGo, hm, hstop, if_true]
          cases hok : item.check r with
          | true =>
            have hv : violates item r = false := by simp [violates, hok]
            have hev : evalSpec item host (r :: rest) = 0 := by
              simp [evalSpec, hru, List.filter_cons, hv]
            simp [hok, hev]
          | false =>
            have hv : violates item r = true := by simp [violates, hok]
            have hev : evalSpec item host (r :: rest) = max r.severity 0 := by
              simp [evalSpec, hru, List.filter_cons, hv, hhit]
            rw [hev]
            cases hgt : decide (r.severity > status) with
            | true =>
              have hgt' := of_decide_eq_true hgt
              simp [hok, hgt]
              omega
            | false =>
              have hgt' := of_decide_eq_false hgt
              simp [hok, hgt]
              omega
        | false =>
          have hru : rulesUpToStop item host (r :: rest) =
              r :: rulesUpToStop item host rest := by
            simp [rulesUpToStop, hstop]
          simp only [applyRulesGo, hm, hstop]
          cases hok : item.check r with
          | true =>
            have hv : violates item r = false := by simp [violates, hok]
            have hev : evalSpec item host (r :: rest) = evalSpec item host rest := by
              simp [evalSpec, hru, List.filter_cons, hv]
            simp only [hok, Bool.not_true, Bool.false_and, Bool.false_eq_true,
              if_false, hev]
            exact ih hrest status
          | false =>
            have hv : violates item r = true := by simp [violates, hok]
            have hev : evalSpec item host (r :: rest) =
                max r.severity (evalSpec item host rest) := by
              simp [evalSpec, hru, List.filter_cons, hv, hhit]
            rw [hev]
            cases hgt : decide (r.severity > status) with
            | true =>
              have hgt' := of_decide_eq_true hgt
              simp only [hok, hgt, Bool.not_false, Bool.true_and, if_true,
                Bool.false_eq_true, if_false]
              rw [ih hrest r.severity]
              congr 1
              omega
            | false =>
              have hgt' := of_decide_eq_false hgt
              simp only [hok, hgt, Bool.not_false, Bool.true_and,
                Bool.false_eq_true, if_false]
              rw [ih hrest status]
              congr 1
              omega

/-- C1: `apply_rules` iterates the rules in declaration order and returns
the maximum severity among considered rules that match the part and are
violated by it (i.e. `check` returns `False`, the value `apply_rules`
binds as `not ok`), with `0` when no rule matched-and-violated; a
matching rule with `stop` truncates the iteration right after itself,
whether or not it is violated.  The hypotheses confine the statement to
runs where the Python code returns normally: `hwf` rules out the
`TypeError` a list-valued `name` predicate would raise inside
`Rule.matches`, and `hcap` rules out the `ZeroDivisionError` a
capacity-0 supply at non-sentinel level would raise inside
`Supply.check`, where the `ℚ` model instead totalises the division. -/
theorem apply_rules_correct (item : PrinterPart) (host : String) (rules : List Rule)
    (hwf : ∀ r ∈ rules, r.matches item host ≠ none)
    (hcap : item.checkSafe = true) :
    apply_rules item host rules = some (evalSpec item host rules) := by
  rw [apply_rules, applyRulesGo_eq item host rules hwf 0]
  simp

/-- Witness for C1, realising the spec's own example: a matching stop rule
that is not violated (threshold 70 at level 75%) followed by a matching
violated rule; the evaluation yields severity 0. -/
theorem apply_rules_correct_witness :
    apply_rules tonerPart "printer1" [stopRule, noThresholdRule] =
      some (evalSpec tonerPart "printer1" [stopRule, noThresholdRule]) :=
  apply_rules_correct tonerPart "printer1" [stopRule, noThresholdRule] (by decide)
    (by decide)

/-- Counterexample for C2: a rule whose `name` sub-predicate is a list.
The claim's any-element semantics would make it match the part
"Black Toner Cartridge" (the element "Toner" is a substring), but
`Rule.matches` raises a `TypeError` (`list not in str`) instead of
returning a boolean. -/
theorem matches_listName_counterexample :
    Rule.matches listNameRule tonerPart "printer1" = none ∧
      matchesClaim listNameRule tonerPart "printer1" = true := by
  constructor <;> rfl

/-- C2 (amended): for every rule whose `name` predicate is not a list,
`Rule.matches` returns normally and agrees with the claim's reading: a
rule with a falsy `match` attribute never matches; otherwise every
sub-predicate present must hold, where `host` compares by equality
(list: membership), and `name`/`type` compare by case-sensitive substring
containment (a `type` list matching when any element is a substring). -/
theorem matches_eq_claim (r : Rule) (o : PrinterPart) (h : String)
    (hwf : r.wellFormed = true) :
    r.matches o h = some (matchesClaim r o h) := by
  cases hm : r.match' with
  | none => simp [Rule.matches, matchesClaim, hm]
  | some m =>
    have hn : m.name = none ∨ ∃ s, m.name = some (MVal.str s) := by
      simp only [Rule.wellFormed, hm] at hwf
      cases hmn : m.name with
      | none => exact Or.inl rfl
      | some mv =>
        cases mv with
        | str s => exact Or.inr ⟨s, rfl⟩
        | list l => simp [hmn] at hwf
    rw [Rule.matches, matchesClaim, hm]
    by_cases hemp : (m.host.isNone && m.name.isNone && m.type.isNone) = true
    · simp [hemp]
    · simp only [hemp, if_false, Bool.false_eq_true]
      cases hh : hostSection m.host h with
      | false => simp [hh]
      | true =>
        rcases hn with hn | ⟨s, hn⟩
        · rw [hn]
          simp only [hh, Bool.not_true, Bool.false_eq_true, if_false,
            Bool.true_and]
          cases m.type with
          | none => simp [matchesTypeStep]
          | some mt => simp [matchesTypeStep]
        · rw [hn]
          cases hc : strContains o.get_name s with
          | false => simp [hh, hc]
          | true =>
            simp only [hh, hc, Bool.not_true, Bool.false_eq_true, if_false,
              Bool.true_and]
            cases m.type with
            | none => simp [matchesTypeStep]
            | some mt => simp [matchesTypeStep]

/-- Witness for C2's amended theorem at the spec's example: a rule with
`match: {type: ["toner", "ink"]}` against a part whose type string is
"tonerCartridge". -/
theorem matches_eq_claim_witness :
    Rule.matches
        { name := "type list", match' := some { type := some (MVal.list ["toner", "ink"]) } }
        tonerPart "printer1" =
      some (matchesClaim
        { name := "type list", match' := some { type := some (MVal.list ["toner", "ink"]) } }
        tonerPart "printer1") :=
  matches_eq_claim _ tonerPart "printer1" (by decide)

/-- Counterexample for C3: a matching rule with no threshold against a
supply at non-sentinel level 50 of 100 is treated as violated
(`check` returns `False`, so `apply_rules` sees `not ok`) and its
severity 2 is the part's resulting status, not 0. -/
theorem noThreshold_counterexample :
    apply_rules halfPart "printer1" [noThresholdRule] = some 2 ∧
      apply_rules halfPart "printer1" [noThresholdRule] ≠ some 0 := by
  constructor
  · rfl
  · decide

/-- C3 (amended): for every supply with non-sentinel level (level >= 0)
and every rule lacking a threshold, `Supply.check` returns `False`; in
`apply_rules` terms the rule is therefore treated as violated whenever it
matches, and it does contribute its severity to the part's status. -/
theorem noThreshold_check_false (s : Supply) (r : Rule) (ts : String)
    (hl : 0 ≤ s.level) (ht : r.threshold = none) :
    s.check r = false ∧ violates (PrinterPart.supply s ts) r = true := by
  have h3 : ¬ s.level = -3 := by omega
  have h2 : ¬ s.level = -2 := by omega
  constructor
  · simp [Supply.check, h3, h2, ht]
  · simp [violates, PrinterPart.check, Supply.check, h3, h2, ht]

/-- Witness for C3's amended theorem at the supply 50 of 100 and the
threshold-less matching rule. -/
theorem noThreshold_check_false_witness :
    Supply.check ⟨"Cyan Toner", 50, 100⟩ noThresholdRule = false ∧
      violates halfPart noThresholdRule = true :=
  noThreshold_check_false ⟨"Cyan Toner", 50, 100⟩ noThresholdRule "tonerCartridge"
    (by decide) (by decide)

/-- C4: for every supply whose level is the sentinel `-3`, and likewise
`-2`, `Supply.check` returns `True` for every rule, regardless of the
rule's threshold. -/
theorem sentinel_check_true (name : String) (capacity : Int) (r : Rule) :
    Supply.check ⟨name, -3, capacity⟩ r = true ∧
      Supply.check ⟨name, -2, capacity⟩ r = true := by
  constructor <;> simp [Supply.check]

/-- Counterexample for C5: a rule carrying the threshold `0` is treated
like a rule with no threshold (`not 0.0` is true in Python), so
`Supply.check` returns `False` at 75% even though `75 >= 0` holds and the
claim's formula demands `True`. -/
theorem zeroThreshold_counterexample :
    Supply.check ⟨"Black Toner Cartridge", 150, 200⟩ zeroThresholdRule = false ∧
      ((150 : ℚ) / 200) * 100 ≥ 0 := by
  constructor
  · rfl
  · norm_num

/-- C5 (amended): for every supply with non-sentinel level (level >= 0),
nonzero capacity, and every rule carrying a nonzero threshold,
`Supply.check` returns `True` exactly when `(level/capacity)*100 >=
threshold`; a threshold configured as `0` is falsy in Python and is
treated as absent instead. -/
theorem threshold_check_iff (s : Supply) (r : Rule) (t : ℚ)
    (hl : 0 ≤ s.level) (hc : s.capacity ≠ 0)
    (hth : r.threshold = some t) (ht : t ≠ 0) :
    s.check r = true ↔ ((s.level : ℚ) / (s.capacity : ℚ)) * 100 ≥ t := by
  have h3 : ¬ s.level = -3 := by omega
  have h2 : ¬ s.level = -2 := by omega
  simp [Supply.check, h3, h2, hth, ht]

/-- Witness for C5's amended theorem at the spec's example: capacity 200,
level 150, threshold 70 gives 75% >= 70, hence `check = True`. -/
theorem threshold_check_iff_witness :
    Supply.check ⟨"Black Toner Cartridge", 150, 200⟩ thresholdRule70 = true :=
  (threshold_check_iff ⟨"Black Toner Cartridge", 150, 200⟩ thresholdRule70 70
    (by decide) (by decide) rfl (by norm_num)).mpr (by norm_num)

/-- Counterexample for C6: a rule carrying the status bound `0` is treated
like a rule with no bound (`not 0` is true in Python), so a tray with
status code 0 gives `check = False` even though `0 <= 0` holds and the
claim demands a violation. -/
theorem zeroStatus_counterexample :
    Tray.check ⟨"Tray 1", 0⟩ zeroStatusRule = false ∧ (0 : Int) ≤ 0 := by
  constructor
  · rfl
  · decide

/-- C6 (amended): a tray never violates a rule with no status bound, and
for a nonzero bound `b` the tray violates the rule (`Tray.check` returns
`True`) exactly when its raw status code is `<= b` — the comparison is
inverted versus supplies.  A bound configured as `0` is falsy in Python
and is treated as absent instead. -/
theorem tray_check_spec (t : Tray) (r : Rule) (b : Int) :
    (r.status = none → Tray.check t r = false) ∧
      (r.status = some b → b ≠ 0 → (Tray.check t r = true ↔ t.status ≤ b)) := by
  constructor
  · intro h
    simp [Tray.check, h]
  · intro h hb
    simp [Tray.check, h, hb]

/-- Witness for C6's amended theorem at the spec's example: a tray with
status code 4 violates a rule with bound 5 (4 <= 5). -/
theorem tray_check_spec_witness :
    Tray.check ⟨"Tray 1", 4⟩ statusRule5 = true :=
  ((tray_check_spec ⟨"Tray 1", 4⟩ statusRule5 5).2 rfl (by decide)).mpr (by decide)

theorem severityFold_clamp (vals : List Int) :
    ∀ a a' : Int, a = min a' 4 →
      vals.foldl (fun m v => if min v 4 > m then min v 4 else m) a =
        min (vals.foldl max a') 4 := by
  induction vals with
  | nil => intro a a' h; simpa using h
  | cons v rest ih =>
    intro a a' h
    simp only [List.foldl_cons]
    apply ih
    by_cases hv : min v 4 > a
    · simp only [hv, if_true]; omega
    · simp only [hv, if_false]; omega

theorem le_foldl_max (vals : List Int) : ∀ a : Int, a ≤ vals.foldl max a := by
  induction vals with
  | nil => intro a; exact le_refl a
  | cons v rest ih =>
    intro a
    exact le_trans (le_max_left a v) (ih (max a v))

/-- Counterexample for C7: an alarm code greater than 4 (here 5, the MIB's
`warningBinaryChangeEvent`) is clamped to 4 by `min(val, 4)` before the
maximum is taken, so the device severity is 1, while the claim's mapping
sends every code other than 4 and 3 — "including codes greater than 4" —
to 0. -/
theorem severity_counterexample :
    maxSeverityLevel [5] = 1 ∧ claimSeverity [5] = 0 := by
  constructor <;> rfl

/-- C7 (amended): the self-reported severity equals the image of the
maximum walked alarm code (taken with initial accumulator 0) after
clamping at 4: any walk whose maximum is >= 4 yields severity 1, a
maximum of exactly 3 yields severity 2, anything else (including the
empty walk) yields 0. -/
theorem maxSeverityLevel_spec (vals : List Int) :
    maxSeverityLevel vals =
      (if 4 ≤ vals.foldl max 0 then 1
       else if vals.foldl max 0 = 3 then 2 else 0) := by
  have hf : severityFold vals = min (vals.foldl max 0) 4 :=
    severityFold_clamp vals 0 0 (by omega)
  have h0 : (0 : Int) ≤ vals.foldl max 0 := le_foldl_max vals 0
  rw [maxSeverityLevel, hf]
  split_ifs <;> omega

unseal List.merge List.mergeSort in
/-- Counterexample for C8: the source's format string at
`printerpoller.py` line 170 is literally `"%s and %d more failures(s)"`,
so the two-violation example renders with "failures(s)", not the
claim's exact string "... 1 more failure(s)". -/
theorem failures_string_counterexample :
    str_err_parts [("Black Toner", 2), ("Fuser", 1)] =
        "Alert for Black Toner and 1 more failures(s)" ∧
      str_err_parts [("Black Toner", 2), ("Fuser", 1)] ≠
        "Alert for Black Toner and 1 more failure(s)" := by
  constructor <;> decide

/-- C8 (amended): `err_parts` is the gathered violation list sorted by
descending severity (a permutation, pairwise non-increasing in the
severity component), and `str_err_parts` is "" for zero violations,
exactly "Alert for <name>" for one, and exactly
"Alert for <name> and N more failures(s)" (the source's literal plural)
for N+1 violations, where <name> is the head of the sorted list. -/
theorem err_summary_spec (l : List (String × Nat)) :
    (err_parts_sorted l).Perm l ∧
      (err_parts_sorted l).Pairwise (fun a b => b.2 ≤ a.2) ∧
      str_err_parts l =
        (match err_parts_sorted l with
         | [] => ""
         | [p] => "Alert for " ++ p.1
         | p :: rest =>
           "Alert for " ++ p.1 ++ " and " ++ toString rest.length ++
             " more failures(s)") := by
  refine ⟨?_, ?_, ?_⟩
  · exact (List.reverse_perm _).trans (List.mergeSort_perm l _)
  · rw [err_parts_sorted, List.pairwise_reverse]
    have hs := @List.sorted_mergeSort (String × Nat)
      (fun a b => decide (a.2 ≤ b.2))
      (by intro a b c hab hbc; simp only [decide_eq_true_eq] at *; omega)
      (by intro a b; simp only [Bool.or_eq_true, decide_eq_true_eq]; omega) l
    exact hs.imp fun h => of_decide_eq_true h
  · cases hep : err_parts_sorted l with
    | nil => simp [str_err_parts, hep]
    | cons p rest =>
      cases rest with
      | nil => simp [str_err_parts, hep]
      | cons q rs => simp [str_err_parts, hep]

theorem lookup_dbSave (db : List (String × DData)) (dev dev' : String) (d : DData) :
    List.lookup dev (dbSave db dev' d) =
      if dev = dev' then some d else List.lookup dev db := by
  induction db with
  | nil =>
    by_cases h : dev = dev'
    · subst h; simp [dbSave, List.lookup]
    · have hb : (dev == dev') = false := beq_eq_false_iff_ne.mpr h
      simp [dbSave, List.lookup, hb, h]
  | cons p rest ih =>
    obtain ⟨k, v⟩ := p
    by_cases hk : k = dev'
    · subst hk
      by_cases h : dev = k
      · subst h; simp [dbSave, List.lookup]
      · have hb : (dev == k) = false := beq_eq_false_iff_ne.mpr h
        simp [dbSave, List.lookup, hb, h]
    · have hbk : (k == dev') = false := beq_eq_false_iff_ne.mpr hk
      by_cases h : dev = k
      · subst h
        have hnd : ¬ dev = dev' := hk
        have hb : (dev == dev) = true := beq_self_eq_true dev
        simp [dbSave, List.lookup, hbk, hnd]
      · have hb : (dev == k) = false := beq_eq_false_iff_ne.mpr h
        simp [dbSave, List.lookup, hbk, hb, ih]

theorem lookup_step_ne (checkFn : String → Option HostData) (now : String)
    (db : List (String × DData)) (dev dev' : String) (h : dev ≠ dev') :
    List.lookup dev (checkPrintersStep checkFn now db dev') =
      List.lookup dev db := by
  simp only [checkPrintersStep]
  rw [lookup_dbSave]
  simp [h]

theorem lookup_step_self (checkFn : String → Option HostData) (now : String)
    (db : List (String × DData)) (dev : String) :
    List.lookup dev (checkPrintersStep checkFn now db dev) =
      some (match checkFn dev with
            | some hd =>
              ⟨some { hd.info with checked := some now },
               some hd.supplies, some hd.trays⟩
            | none =>
              ⟨some { offlineInfo dev with checked := some now },
               ((List.lookup dev db).getD ⟨none, none, none⟩).supplies,
               ((List.lookup dev db).getD ⟨none, none, none⟩).trays⟩) := by
  simp only [checkPrintersStep, dbGet]
  rw [lookup_dbSave]
  cases hcf : checkFn dev <;> simp [hcf, offlineInfo]

theorem check_printers_cons (checkFn : String → Option HostData) (now : String)
    (db : List (String × DData)) (d : String) (rest : List String) :
    check_printers checkFn now db (d :: rest) =
      check_printers checkFn now (checkPrintersStep checkFn now db d) rest := rfl

theorem lookup_unprocessed (checkFn : String → Option HostData) (now : String) :
    ∀ (hosts : List String) (db : List (String × DData)) (dev : String),
      dev ∉ hosts →
      List.lookup dev (check_printers checkFn now db hosts) =
        List.lookup dev db := by
  intro hosts
  induction hosts with
  | nil => intro db dev _; rfl
  | cons d rest ih =>
    intro db dev hdev
    rw [List.mem_cons, not_or] at hdev
    rw [check_printers_cons, ih _ dev hdev.2,
      lookup_step_ne checkFn now db dev d hdev.1]

/-- Counterexample for C9: host "p" already has a stored record with a
non-empty supply list; when its check raises a connection error, the
saved record keeps the old supply list (and old tray list) — the lists do
not become empty as the claim states. -/
theorem offline_keeps_old_counterexample :
    List.lookup "p" (check_printers allOffline "ts" oldRecordDB ["p"]) =
        some ⟨some ⟨2, "p", "Printer offline", "#DC143C", some "ts"⟩,
              some ["toner entry"], some []⟩ ∧
      some ["toner entry"] ≠ some ([] : List String) := by
  constructor
  · rfl
  · simp

/-- C9 (amended): a connection failure for one host does not abort the
remaining hosts — every host in the (duplicate-free) list ends up saved:
a successful host's record is the fresh check result stamped with the
`checked` timestamp, and a failed host's record has the degraded info
(`max_status` 2, name = host, offline alert, critical header color,
`checked` timestamp) while its supply and tray lists are left exactly as
they were in the database before the run (absent for a new device, the
previous values for an existing one). -/
theorem check_printers_spec (checkFn : String → Option HostData) (now : String)
    (db : List (String × DData)) (hosts : List String) (hnd : hosts.Nodup) :
    ∀ dev ∈ hosts,
      (∀ hd, checkFn dev = some hd →
        List.lookup dev (check_printers checkFn now db hosts) =
          some ⟨some { hd.info with checked := some now },
                some hd.supplies, some hd.trays⟩) ∧
      (checkFn dev = none →
        List.lookup dev (check_printers checkFn now db hosts) =
          some ⟨some { offlineInfo dev with checked := some now },
                ((List.lookup dev db).getD ⟨none, none, none⟩).supplies,
                ((List.lookup dev db).getD ⟨none, none, none⟩).trays⟩) := by
  induction hosts generalizing db with
  | nil => intro dev hdev; exact absurd hdev (List.not_mem_nil dev)
  | cons d rest ih =>
    intro dev hdev
    obtain ⟨hd_nin, hnd'⟩ := List.nodup_cons.mp hnd
    rcases List.mem_cons.mp hdev with heq | hmem
    · subst heq
      have hnin : dev ∉ rest := hd_nin
      constructor
      · intro hd hcf
        rw [check_printers_cons,
          lookup_unprocessed checkFn now rest _ dev hnin,
          lookup_step_self checkFn now db dev, hcf]
      · intro hcf
        rw [check_printers_cons,
          lookup_unprocessed checkFn now rest _ dev hnin,
          lookup_step_self checkFn now db dev, hcf]
    · have hne : dev ≠ d := fun he => hd_nin (he ▸ hmem)
      have hstep := ih (checkPrintersStep checkFn now db d) hnd' dev hmem
      rw [check_printers_cons]
      constructor
      · intro hd hcf
        exact hstep.1 hd hcf
      · intro hcf
        have h2 := hstep.2 hcf
        rwa [lookup_step_ne checkFn now db dev d hne] at h2

/-- Witness for C9's amended theorem: with an empty database, host "p"
fails and host "q" succeeds; both end up saved — "q" with its fresh data
and timestamp, "p" with the degraded info and absent supply/tray lists. -/
theorem check_printers_spec_witness :
    List.lookup "q" (check_printers mixedCheckFn "ts" [] ["p", "q"]) =
        some ⟨some ⟨0, "Printer Q", "", "#eeeeee", some "ts"⟩,
              some ["black toner"], some ["tray 1"]⟩ ∧
      List.lookup "p" (check_printers mixedCheckFn "ts" [] ["p", "q"]) =
        some ⟨some ⟨2, "p", "Printer offline", "#DC143C", some "ts"⟩,
              none, none⟩ := by
  constructor
  · exact (check_printers_spec mixedCheckFn "ts" [] ["p", "q"] (by decide)
      "q" (by decide)).1 sampleHostData rfl
  · exact (check_printers_spec mixedCheckFn "ts" [] ["p", "q"] (by decide)
      "p" (by decide)).2 rfl

theorem parseKey_length (attr : String) :
    ∀ (es : List Entry) (idx : Nat) (items : List Entity),
      idx ≤ items.length →
      (parseKey attr es idx items).length = max items.length (idx + es.length) := by
  intro es
  induction es with
  | nil =>
    intro idx items h
    simp only [parseKey, List.length_nil]
    omega
  | cons e rest ih =>
    intro idx items h
    simp only [parseKey]
    by_cases hc : (idx : Int) > (items.length : Int) - 1
    · have hidx : idx = items.length := by omega
      rw [if_pos hc,
        ih (idx + 1) (items ++ [add_data attr e emptyEntity])
          (by simp [List.length_append]; omega)]
      simp only [List.length_append, List.length_cons, List.length_nil]
      omega
    · rw [if_neg hc,
        ih (idx + 1) (items.set idx (add_data attr e (items.getD idx emptyEntity)))
          (by simp [List.length_set]; omega)]
      simp only [List.length_set, List.length_cons]
      omega

theorem parseKey_nth (attr : String) :
    ∀ (es : List Entry) (idx : Nat) (items : List Entity),
      idx ≤ items.length → ∀ j,
      nth (parseKey attr es idx items) j =
        (if idx ≤ j then
          (match es[j - idx]? with
           | some e => add_data attr e (nth items j)
           | none => nth items j)
         else nth items j) := by
  intro es
  induction es with
  | nil =>
    intro idx items _ j
    simp only [parseKey, List.getElem?_nil]
    split_ifs <;> rfl
  | cons e rest ih =>
    intro idx items h j
    simp only [parseKey]
    by_cases hc : (idx : Int) > (items.length : Int) - 1
    · have hidx : idx = items.length := by omega
      rw [if_pos hc,
        ih (idx + 1) (items ++ [add_data attr e emptyEntity])
          (by simp [List.length_append]; omega) j]
      by_cases hj1 : idx + 1 ≤ j
      · rw [if_pos hj1, if_pos (by omega : idx ≤ j)]
        have hsub : j - idx = (j - (idx + 1)) + 1 := by omega
        rw [hsub, List.getElem?_cons_succ]
        have hb : nth (items ++ [add_data attr e emptyEntity]) j = nth items j := by
          rw [nth, nth,
            List.getElem?_eq_none (by simp [List.length_append]; omega),
            List.getElem?_eq_none (by omega)]
        rw [hb]
      · by_cases hj : j = idx
        · subst hj
          rw [if_neg hj1, if_pos (le_refl j)]
          have h1 : (items ++ [add_data attr e emptyEntity])[j]? =
              some (add_data attr e emptyEntity) := by
            rw [hidx]
            exact List.getElem?_concat_length items _
          have h2 : items[j]? = none := List.getElem?_eq_none (by omega)
          simp [nth, h1, h2, Nat.sub_self, emptyEntity]
        · have hjlt : j < idx := by omega
          rw [if_neg hj1, if_neg (by omega : ¬ idx ≤ j)]
          rw [nth, nth, List.getElem?_append_left (by omega : j < items.length)]
    · have hlt : idx < items.length := by omega
      rw [if_neg hc,
        ih (idx + 1) (items.set idx (add_data attr e (items.getD idx emptyEntity)))
          (by simp [List.length_set]; omega) j]
      by_cases hj1 : idx + 1 ≤ j
      · rw [if_pos hj1, if_pos (by omega : idx ≤ j)]
        have hsub : j - idx = (j - (idx + 1)) + 1 := by omega
        rw [hsub, List.getElem?_cons_succ]
        have hb : nth (items.set idx (add_data attr e (items.getD idx emptyEntity))) j =
            nth items j := by
          rw [nth, nth, List.getElem?_set_ne (by omega : idx ≠ j)]
        rw [hb]
      · by_cases hj : j = idx
        · subst hj
          rw [if_neg hj1, if_pos (le_refl j)]
          have h1 : (items.set j (add_data attr e (items.getD j emptyEntity)))[j]? =
              some (add_data attr e (items.getD j emptyEntity)) :=
            List.getElem?_set_self hlt
          have h2 : items.getD j emptyEntity = items[j]?.getD emptyEntity :=
            List.getD_eq_getElem?_getD items j emptyEntity
          rw [h2] at h1
          simp only [nth, h1, Option.getD_some, Nat.sub_self,
            List.getElem?_cons_zero, h2]
        · have hjlt : j < idx := by omega
          rw [if_neg hj1, if_neg (by omega : ¬ idx ≤ j)]
          rw [nth, nth, List.getElem?_set_ne (by omega : idx ≠ j)]

theorem parseKey_preserve (attr attr' : String) (hne : attr' ≠ attr)
    (es : List Entry) (idx : Nat) (items : List Entity)
    (h : idx ≤ items.length) (j : Nat) :
    nth (parseKey attr es idx items) j attr' = nth items j attr' := by
  rw [parseKey_nth attr es idx items h j]
  split_ifs
  · cases hje : es[j - idx]? with
    | none => rfl
    | some e => simp [add_data, hne]
  · rfl

theorem parse_aux_length (walk : String → List Entry) :
    ∀ (fields : List (String × String)) (items : List Entity),
      (fields.foldl (fun its f => parseKey f.2 (walk f.1) 0 its) items).length =
        fields.foldl (fun m f => max m (walk f.1).length) items.length := by
  intro fields
  induction fields with
  | nil => intro items; rfl
  | cons f rest ih =>
    intro items
    simp only [List.foldl_cons]
    rw [ih (parseKey f.2 (walk f.1) 0 items),
      parseKey_length f.2 (walk f.1) 0 items (Nat.zero_le _)]
    simp

theorem parse_preserve (walk : String → List Entry) :
    ∀ (fields : List (String × String)) (items : List Entity) (attr : String),
      attr ∉ fields.map Prod.snd → ∀ j,
      nth (fields.foldl (fun its f => parseKey f.2 (walk f.1) 0 its) items) j attr =
        nth items j attr := by
  intro fields
  induction fields with
  | nil => intro items attr _ j; rfl
  | cons f rest ih =>
    intro items attr hattr j
    rw [List.map_cons, List.mem_cons, not_or] at hattr
    simp only [List.foldl_cons]
    rw [ih (parseKey f.2 (walk f.1) 0 items) attr hattr.2 j,
      parseKey_preserve f.2 attr hattr.1 (walk f.1) 0 items (Nat.zero_le _) j]

theorem parse_attr (walk : String → List Entry) :
    ∀ (fields : List (String × String)) (items : List Entity),
      (fields.map Prod.snd).Nodup →
      ∀ oid attr, (oid, attr) ∈ fields → (∀ j, nth items j attr = none) →
      ∀ j,
        nth (fields.foldl (fun its f => parseKey f.2 (walk f.1) 0 its) items) j attr =
          ((walk oid)[j]?).map convertEntry := by
  intro fields
  induction fields with
  | nil =>
    intro items _ oid attr hmem
    exact absurd hmem (List.not_mem_nil _)
  | cons f rest ih =>
    intro items hnd oid attr hmem hnone j
    rw [List.map_cons] at hnd
    obtain ⟨hf_nin, hnd'⟩ := List.nodup_cons.mp hnd
    simp only [List.foldl_cons]
    rcases List.mem_cons.mp hmem with heq | hmem'
    · have hfst : f.1 = oid := by rw [← heq]
      have hsnd : f.2 = attr := by rw [← heq]
      subst hfst
      subst hsnd
      have hattr_rest : f.2 ∉ rest.map Prod.snd := hf_nin
      rw [parse_preserve walk rest _ f.2 hattr_rest j,
        parseKey_nth f.2 (walk f.1) 0 items (Nat.zero_le _) j]
      simp only [Nat.zero_le, if_true, Nat.sub_zero]
      cases hj : (walk f.1)[j]? with
      | none => simp [hnone j]
      | some e => simp [add_data]
    · have hattr_in : attr ∈ rest.map Prod.snd :=
        List.mem_map.mpr ⟨(oid, attr), hmem', rfl⟩
      have hne : attr ≠ f.2 := fun he => hf_nin (he ▸ hattr_in)
      apply ih (parseKey f.2 (walk f.1) 0 items) hnd' oid attr hmem' _ j
      intro j'
      rw [parseKey_preserve f.2 attr hne (walk f.1) 0 items (Nat.zero_le _) j']
      exact hnone j'

/-- C10: `_parse_data` is total under mismatched parallel walks and
behaves position-wise: over a schema whose attribute names are distinct,
the number of entities built equals the maximum walk length over all
schema fields, and for every field the `j`-th entity's attribute holds
the converted `j`-th walked value — in particular it stays `none`
(the `None` set by `SNMPWalkable.__init__`) whenever that field's walk is
shorter than `j + 1`, and no walked value is dropped. -/
theorem parse_data_total (fields : List (String × String))
    (walk : String → List Entry) (hnd : (fields.map Prod.snd).Nodup) :
    (parse_data fields walk).length =
        fields.foldl (fun m f => max m (walk f.1).length) 0 ∧
      ∀ oid attr, (oid, attr) ∈ fields → ∀ j,
        nth (parse_data fields walk) j attr = ((walk oid)[j]?).map convertEntry := by
  constructor
  · rw [parse_data, parse_aux_length walk fields []]
    rfl
  · intro oid attr hmem j
    exact parse_attr walk fields [] hnd oid attr hmem (fun _ => rfl) j

/-- Witness for C10 on the mismatched schema `sampleFields`/`sampleWalk`
(two names, one level): two entities are built; the second entity's
`name` is the cleaned second walked string and its `level` remains
`none`. -/
theorem parse_data_total_witness :
    (parse_data sampleFields sampleWalk).length = 2 ∧
      nth (parse_data sampleFields sampleWalk) 1 "name" =
        some (SVal.str "Fuser") ∧
      nth (parse_data sampleFields sampleWalk) 1 "level" = none := by
  have h := parse_data_total sampleFields sampleWalk (by decide)
  refine ⟨?_, ?_, ?_⟩
  · rw [h.1]; rfl
  · rw [h.2 "1.6" "name" (by decide) 1]; decide
  · rw [h.2 "1.9" "level" (by decide) 1]; rfl
